import Mathlib

set_option autoImplicit false

/-!
Shallow embedding of the telemetry-update pipeline of the fleet-backend
repository (packages `batch`, `telemetry` and `websocket`).

Modelling conventions used throughout:
* Go `map[string]T` is modelled as an association list `List (String × T)`
  with `GoMap.lookup` / `GoMap.insert` (insert replaces the value at an
  existing key, as a Go map assignment does).
* `time.Time` / `time.Duration` values are modelled as rationals measured in
  seconds; `time.Now()` is passed in explicitly as a `now` parameter.
* Go `float64` arithmetic is modelled over `ℚ`; `int` over `ℤ` (counters
  that are only ever zeroed or incremented use `ℕ`).
* Error values are modelled as `Option` data (`none` = nil error).
* The random choice Go's `select` makes when several cases are ready is
  modelled by an explicit oracle argument.
-/

namespace FleetBackend

namespace GoMap

/-- Lookup of a key in an association list modelling a Go map. -/
def lookup {α : Type} (k : String) : List (String × α) → Option α
  | [] => none
  | (k', v) :: rest => if k' = k then some v else lookup k rest

/-- Assignment `m[k] = v` on a Go map: replaces the value at `k` if the key
is present, appends the binding otherwise. -/
def insert {α : Type} (k : String) (v : α) : List (String × α) → List (String × α)
  | [] => [(k, v)]
  | (k', v') :: rest => if k' = k then (k, v) :: rest else (k', v') :: insert k v rest

/-- Number of entries whose key is `k`. -/
def countKey {α : Type} (k : String) (m : List (String × α)) : ℕ :=
  (m.filter (fun e => e.1 == k)).length

end GoMap

/-- Payload values stored under string keys in the dynamic
`map[string]interface{}` payloads of the source (`update.Data`, change sets). -/
inductive Value where
  | str (s : String)
  | num (q : ℚ)
  | int (n : ℤ)
  | loc (lat lng : ℚ) (address : String)
  | time (t : ℚ)
  deriving DecidableEq, Repr

/-- The `models.Location` struct: latitude, longitude, address. -/
structure Location where
  lat : ℚ
  lng : ℚ
  address : String
  deriving DecidableEq, Repr

namespace Batch

/-- The `batch.VehicleUpdateData` struct: a sparse update whose nil pointers
mean "field not carried by this update". -/
structure VehicleUpdateData where
  fuelLevel : Option ℚ
  location : Option Location
  speed : Option ℤ
  status : Option String
  odometer : Option ℤ
  timestamp : ℚ
  deriving DecidableEq, Repr

/-- The `batch.BatchConfig` struct (durations in seconds). -/
structure BatchConfig where
  maxBatchSize : ℕ
  batchInterval : ℚ
  maxWaitTime : ℚ
  retryAttempts : ℕ
  retryBackoff : ℚ
  deriving DecidableEq, Repr

/-- The pending buffer `bp.updates : map[string]VehicleUpdateData`. -/
abbrev PendingBuffer := List (String × VehicleUpdateData)

/-- `DefaultBatchProcessor.addToCurrentBatch`: `bp.updates[vehicleID] = update`. -/
def addToCurrentBatch (buffer : PendingBuffer) (vehicleID : String)
    (update : VehicleUpdateData) : PendingBuffer :=
  GoMap.insert vehicleID update buffer

/-- Loop body of `DefaultBatchProcessor.splitIntoBatches`: accumulate entries
into `acc`, emitting `acc` as a sub-batch each time it reaches `maxSize`. -/
def splitLoop (maxSize : ℕ) (acc : PendingBuffer) :
    PendingBuffer → List PendingBuffer
  | [] => if acc.isEmpty then [] else [acc]
  | e :: rest =>
      if maxSize ≤ (acc ++ [e]).length then (acc ++ [e]) :: splitLoop maxSize [] rest
      else splitLoop maxSize (acc ++ [e]) rest

/-- `DefaultBatchProcessor.splitIntoBatches`. -/
def splitIntoBatches (maxSize : ℕ) (updates : PendingBuffer) : List PendingBuffer :=
  if updates.length ≤ maxSize then [updates]
  else splitLoop maxSize [] updates

/-- Observable outcome of processing one sub-batch.
`err` is the returned error (`none` = nil); `persisted` lists the repository
writes that succeeded (a successful bulk write persists the whole sub-batch);
`failedUpdates` is how often `incrementFailedUpdates` ran;
`broadcastAttempted`/`broadcastFailed` record the WebSocket broadcast step. -/
structure BatchResult where
  err : Option (List String)
  persisted : List (String × VehicleUpdateData)
  failedUpdates : ℕ
  broadcastAttempted : Bool
  broadcastFailed : Bool
  deriving DecidableEq, Repr

/-- `DefaultBatchProcessor.fallbackToIndividualUpdates`: write every entity of
the sub-batch individually through `indOk` (the per-entity repository oracle),
collecting the failures without aborting the rest. -/
def fallbackToIndividualUpdates (indOk : String → Bool)
    (batch : List (String × VehicleUpdateData)) : BatchResult :=
  let errs := (batch.filter (fun e => !(indOk e.1))).map Prod.fst
  { err := if errs.isEmpty then none else some errs
    persisted := batch.filter (fun e => indOk e.1)
    failedUpdates := errs.length
    broadcastAttempted := false
    broadcastFailed := false }

/-- Retry loop of `DefaultBatchProcessor.processSingleBatch`.
`bulkOk i` tells whether the bulk repository write succeeds at attempt `i`;
`stopSignal i` tells whether the shutdown context fires during the backoff
sleep before attempt `i`; `wsOk` tells whether the WebSocket broadcast
succeeds.  The fuel argument mirrors the loop bound `attempt ≤ retryAttempts`;
the fuel-0 branch is the dead "unexpected error" return of the source. -/
def processLoop (cfg : BatchConfig) (bulkOk : ℕ → Bool) (indOk : String → Bool)
    (stopSignal : ℕ → Bool) (wsOk : Bool)
    (batch : List (String × VehicleUpdateData)) : ℕ → ℕ → BatchResult
  | _, 0 => ⟨some ["unexpected error in batch processing"], [], 0, false, false⟩
  | attempt, fuel + 1 =>
      if 0 < attempt ∧ stopSignal attempt = true then
        ⟨some ["batch processor stopped during retry"], [], 0, false, false⟩
      else if bulkOk attempt then
        ⟨none, batch, 0, true, !wsOk⟩
      else if attempt = cfg.retryAttempts then
        fallbackToIndividualUpdates indOk batch
      else
        processLoop cfg bulkOk indOk stopSignal wsOk batch (attempt + 1) fuel

/-- `DefaultBatchProcessor.processSingleBatch`. -/
def processSingleBatch (cfg : BatchConfig) (bulkOk : ℕ → Bool)
    (indOk : String → Bool) (stopSignal : ℕ → Bool) (wsOk : Bool)
    (batch : List (String × VehicleUpdateData)) : BatchResult :=
  processLoop cfg bulkOk indOk stopSignal wsOk batch 0 (cfg.retryAttempts + 1)

/-- Observable outcome of `DefaultBatchProcessor.ProcessBatch`: the pending
buffer is drained (it becomes empty), split into sub-batches, and each
sub-batch is processed independently. -/
structure ProcessOutcome where
  err : Option String
  persisted : List (String × VehicleUpdateData)
  totalErrors : ℕ
  batchCount : ℕ
  deriving DecidableEq, Repr

/-- `DefaultBatchProcessor.ProcessBatch` (the drained buffer is the argument;
after the call the processor's buffer is empty). -/
def ProcessBatch (cfg : BatchConfig) (bulkOk : ℕ → Bool) (indOk : String → Bool)
    (stopSignal : ℕ → Bool) (wsOk : Bool) (buffer : PendingBuffer) : ProcessOutcome :=
  if buffer.isEmpty then ⟨none, [], 0, 0⟩
  else
    let batches := splitIntoBatches cfg.maxBatchSize buffer
    let results := batches.map (processSingleBatch cfg bulkOk indOk stopSignal wsOk)
    let totalErrors := (results.filter (fun r => r.err.isSome)).length
    { err := if 0 < totalErrors then some "failed to process batches" else none
      persisted := (results.map BatchResult.persisted).flatten
      totalErrors := totalErrors
      batchCount := batches.length }

/-- Result of `DefaultBatchProcessor.AddUpdate`: nil error (the update was
sent into the intake channel), the "batch processor is stopped" error, or the
"update queue is full, dropping update" error. -/
inductive AddResult where
  | enqueued
  | errStopped
  | errQueueFull
  deriving DecidableEq, Repr

/-- Intake-side state of the processor: whether `bp.ctx` has been cancelled
by `Stop()`, the buffered intake channel `bp.updateChan` contents, and its
capacity (`MaxBatchSize * 2` in `NewBatchProcessor`). -/
structure IntakeState where
  stopped : Bool
  queue : List (String × VehicleUpdateData)
  capacity : ℕ
  deriving DecidableEq, Repr

/-- `DefaultBatchProcessor.AddUpdate`: a `select` over (send to the buffered
channel | ctx.Done | default).  The send case is ready while the channel
buffer has room; the Done case is ready once the processor is stopped; the
default case fires only when neither is ready.  When both the send and the
Done case are ready Go chooses uniformly at random between them; that choice
is the `pickSend` oracle. -/
def AddUpdate (st : IntakeState) (vehicleID : String) (update : VehicleUpdateData)
    (pickSend : Bool) : AddResult × IntakeState :=
  let sendReady := st.queue.length < st.capacity
  let doneReady := st.stopped = true
  if sendReady ∧ doneReady then
    if pickSend then (.enqueued, { st with queue := st.queue ++ [(vehicleID, update)] })
    else (.errStopped, st)
  else if sendReady then (.enqueued, { st with queue := st.queue ++ [(vehicleID, update)] })
  else if doneReady then (.errStopped, st)
  else (.errQueueFull, st)

end Batch

namespace Telemetry

/-- The `telemetry.VehicleState` enumeration. -/
inductive VehicleState where
  | active
  | idle
  | parked
  | maintenance
  | offline
  deriving DecidableEq, Repr

/-- The `telemetry.UpdateFrequency` struct (durations in seconds). -/
structure UpdateFrequency where
  interval : ℚ
  maxInterval : ℚ
  minInterval : ℚ
  deriving DecidableEq, Repr

/-- The per-state frequency table built by `NewAdaptiveScheduler`
(30s/15s/2m for active, 2m/1m/5m for idle, 10m/5m/30m for parked,
30m/15m/2h for maintenance, 1h/30m/6h for offline; in seconds). -/
def frequencies : VehicleState → UpdateFrequency
  | .active => ⟨30, 120, 15⟩
  | .idle => ⟨120, 300, 60⟩
  | .parked => ⟨600, 1800, 300⟩
  | .maintenance => ⟨1800, 7200, 900⟩
  | .offline => ⟨3600, 21600, 1800⟩

/-- The `telemetry.VehicleSchedule` struct.  The running ticker is modelled by
its period: `ticker = none` means no ticker has been started for the vehicle
(`schedule.ticker == nil` in the source). -/
structure VehicleSchedule where
  vehicleID : String
  currentState : VehicleState
  lastUpdate : ℚ
  nextUpdate : ℚ
  updateInterval : ℚ
  consecutiveIdle : ℕ
  ticker : Option ℚ
  deriving DecidableEq, Repr

/-- The scheduler's vehicle table `as.vehicles`. -/
structure SchedulerState where
  vehicles : List (String × VehicleSchedule)
  deriving DecidableEq, Repr

/-- `AdaptiveScheduler.adjustUpdateFrequency`: for idle/parked states the
idle-cycle counter is incremented and the interval grows by 20% per cycle,
clamped at the state's maximum; otherwise the interval is the state's nominal
interval. -/
def adjustUpdateFrequency (schedule : VehicleSchedule) (now : ℚ) : VehicleSchedule :=
  let freq := frequencies schedule.currentState
  let schedule :=
    if schedule.currentState = .idle ∨ schedule.currentState = .parked then
      let consecutive := schedule.consecutiveIdle + 1
      let multiplier : ℚ := 1 + consecutive * (1 / 5)
      let newInterval := freq.interval * multiplier
      let newInterval := if freq.maxInterval < newInterval then freq.maxInterval else newInterval
      { schedule with consecutiveIdle := consecutive, updateInterval := newInterval }
    else
      { schedule with updateInterval := freq.interval }
  { schedule with nextUpdate := now + schedule.updateInterval }

/-- `AdaptiveScheduler.startScheduler`: stops any running ticker and starts a
new one with period `schedule.UpdateInterval`. -/
def startScheduler (schedule : VehicleSchedule) : VehicleSchedule :=
  { schedule with ticker := some schedule.updateInterval }

/-- `AdaptiveScheduler.UpdateVehicleState`: lazily creates the schedule for an
unknown vehicle, then — only when the reported state differs from the stored
one — zeroes the idle counter, recomputes the interval and restarts the
ticker. -/
def UpdateVehicleState (s : SchedulerState) (vehicleID : String)
    (newState : VehicleState) (now : ℚ) : SchedulerState :=
  let found := GoMap.lookup vehicleID s.vehicles
  let schedule :=
    match found with
    | some sc => sc
    | none =>
        { vehicleID := vehicleID, currentState := newState, lastUpdate := now
          nextUpdate := 0, updateInterval := 0, consecutiveIdle := 0, ticker := none }
  let s : SchedulerState :=
    match found with
    | some _ => s
    | none => ⟨GoMap.insert vehicleID schedule s.vehicles⟩
  if schedule.currentState ≠ newState then
    let schedule := { schedule with currentState := newState, consecutiveIdle := 0 }
    let schedule := startScheduler (adjustUpdateFrequency schedule now)
    ⟨GoMap.insert vehicleID schedule s.vehicles⟩
  else s

/-- The `telemetry.Priority` enumeration. -/
inductive Priority where
  | low
  | medium
  | high
  | critical
  deriving DecidableEq, Repr

/-- The `telemetry.VehicleRateLimit` struct.  `currentRequests` is `ℕ`
because the source only ever zeroes or increments it. -/
structure VehicleRateLimit where
  vehicleID : String
  requestsPerHour : ℤ
  currentRequests : ℕ
  windowStart : ℚ
  backoffLevel : ℕ
  lastRejection : ℚ
  consecutiveRejects : ℕ
  deriving DecidableEq, Repr

/-- The `telemetry.RateLimitConfig` struct (durations in seconds). -/
structure RateLimitConfig where
  baseRequestsPerHour : ℤ
  maxRequestsPerHour : ℤ
  backoffMultiplier : ℚ
  backoffResetDuration : ℚ
  burstAllowance : ℤ
  windowDuration : ℚ
  deriving DecidableEq, Repr

/-- Go's `int(x)` conversion from `float64`: truncation toward zero. -/
def goIntTrunc (q : ℚ) : ℤ :=
  if q < 0 then -((-q).floor) else q.floor

/-- `SmartRateLimiter.calculateCurrentLimit`: the base limit shrunk by
`backoffMultiplier` once per backoff level. -/
def calculateCurrentLimit (cfg : RateLimitConfig) (limit : VehicleRateLimit) : ℤ :=
  if 0 < limit.backoffLevel then
    goIntTrunc ((cfg.baseRequestsPerHour : ℚ) * (1 / cfg.backoffMultiplier ^ limit.backoffLevel))
  else
    cfg.baseRequestsPerHour

/-- `SmartRateLimiter.calculateRetryAfter`: 30 seconds per consecutive
rejection, amplified by `backoffMultiplier^backoffLevel`, capped at 15
minutes. -/
def calculateRetryAfter (cfg : RateLimitConfig) (limit : VehicleRateLimit) : ℚ :=
  let baseRetry : ℚ := (limit.consecutiveRejects : ℚ) * 30
  let retryDuration := baseRetry * cfg.backoffMultiplier ^ limit.backoffLevel
  let maxRetry : ℚ := 900
  if maxRetry < retryDuration then maxRetry else retryDuration

/-- The limiter's per-vehicle table `srl.vehicleLimits`. -/
structure RateLimiterState where
  vehicleLimits : List (String × VehicleRateLimit)
  deriving DecidableEq, Repr

/-- `SmartRateLimiter.CanMakeRequest`: returns (admitted, retryAfter, new
table state).  The zero `time.Time` of a never-rejected vehicle is modelled
as instant `0`. -/
def CanMakeRequest (cfg : RateLimitConfig) (s : RateLimiterState)
    (vehicleID : String) (priority : Priority) (now : ℚ) :
    Bool × ℚ × RateLimiterState :=
  let limit :=
    match GoMap.lookup vehicleID s.vehicleLimits with
    | some l => l
    | none =>
        { vehicleID := vehicleID, requestsPerHour := cfg.baseRequestsPerHour
          currentRequests := 0, windowStart := now, backoffLevel := 0
          lastRejection := 0, consecutiveRejects := 0 }
  let limit :=
    if cfg.windowDuration ≤ now - limit.windowStart then
      { limit with currentRequests := 0, windowStart := now }
    else limit
  let limit :=
    if cfg.backoffResetDuration ≤ now - limit.lastRejection then
      { limit with backoffLevel := 0, consecutiveRejects := 0 }
    else limit
  let currentLimit := calculateCurrentLimit cfg limit
  let currentLimit :=
    if priority = .critical then currentLimit + cfg.burstAllowance else currentLimit
  if (limit.currentRequests : ℤ) < currentLimit then
    let limit := { limit with currentRequests := limit.currentRequests + 1 }
    (true, 0, ⟨GoMap.insert vehicleID limit s.vehicleLimits⟩)
  else
    let limit := { limit with consecutiveRejects := limit.consecutiveRejects + 1
                              lastRejection := now }
    let limit :=
      if limit.backoffLevel < 5 then { limit with backoffLevel := limit.backoffLevel + 1 }
      else limit
    (false, calculateRetryAfter cfg limit, ⟨GoMap.insert vehicleID limit s.vehicleLimits⟩)

/-- Window counter currently stored for a vehicle (0 when the vehicle has no
entry, matching the counter a freshly created entry starts with). -/
def currentCount (s : RateLimiterState) (vehicleID : String) : ℕ :=
  match GoMap.lookup vehicleID s.vehicleLimits with
  | some l => l.currentRequests
  | none => 0

/-- The `models.Vehicle` fields the delta tracker reads. -/
structure Vehicle where
  id : String
  fuelLevel : ℚ
  location : Location
  speed : ℤ
  status : String
  odometer : ℤ
  deriving DecidableEq, Repr

/-- The `telemetry.VehicleSnapshot` struct. -/
structure VehicleSnapshot where
  fuelLevel : ℚ
  location : Location
  speed : ℤ
  status : String
  odometer : ℤ
  lastUpdate : ℚ
  deriving DecidableEq, Repr

/-- The `telemetry.DeltaThresholds` struct (time threshold in seconds). -/
structure DeltaThresholds where
  fuelLevelPercent : ℚ
  locationMeters : ℚ
  speedKmh : ℤ
  odometerKm : ℤ
  timeThreshold : ℚ
  deriving DecidableEq, Repr

/-- The thresholds installed by `NewDeltaTracker`
(5%, 100m, 10km/h, 1km, 15 minutes). -/
def defaultThresholds : DeltaThresholds := ⟨5, 100, 10, 1, 900⟩

/-- The tracker's snapshot table and thresholds. -/
structure DeltaTrackerState where
  lastStates : List (String × VehicleSnapshot)
  thresholds : DeltaThresholds
  deriving DecidableEq, Repr

/-- `DeltaTracker.createSnapshot`. -/
def createSnapshot (vehicle : Vehicle) (now : ℚ) : VehicleSnapshot :=
  { fuelLevel := vehicle.fuelLevel, location := vehicle.location
    speed := vehicle.speed, status := vehicle.status
    odometer := vehicle.odometer, lastUpdate := now }

/-- `DeltaTracker.createFullUpdate`: the full change-set payload carrying
every field of the vehicle. -/
def createFullUpdate (vehicle : Vehicle) (now : ℚ) : List (String × Value) :=
  [("vehicleId", Value.str vehicle.id),
   ("fuelLevel", Value.num vehicle.fuelLevel),
   ("location", Value.loc vehicle.location.lat vehicle.location.lng vehicle.location.address),
   ("speed", Value.int vehicle.speed),
   ("status", Value.str vehicle.status),
   ("odometer", Value.int vehicle.odometer),
   ("timestamp", Value.time now),
   ("updateType", Value.str "full")]

/-- `DeltaTracker.ShouldUpdate`.  `calcDistance` abstracts the source's
`calculateDistance` haversine (floating-point trigonometry, taken as an
oracle): the comparisons and state transitions are modelled exactly. -/
def ShouldUpdate (calcDistance : Location → Location → ℚ)
    (dt : DeltaTrackerState) (vehicleID : String) (current : Vehicle) (now : ℚ) :
    Bool × List (String × Value) × DeltaTrackerState :=
  match GoMap.lookup vehicleID dt.lastStates with
  | none =>
      (true, createFullUpdate current now,
        { dt with lastStates := GoMap.insert vehicleID (createSnapshot current now) dt.lastStates })
  | some lastState =>
      if dt.thresholds.timeThreshold < now - lastState.lastUpdate then
        (true, createFullUpdate current now,
          { dt with lastStates := GoMap.insert vehicleID (createSnapshot current now) dt.lastStates })
      else
        let changes : List (String × Value) := []
        let fuelChange := |current.fuelLevel - lastState.fuelLevel|
        let (changes, hasSignificantChange) :=
          if dt.thresholds.fuelLevelPercent ≤ fuelChange then
            (changes ++ [("fuelLevel", Value.num current.fuelLevel),
                         ("fuelChange", Value.num (current.fuelLevel - lastState.fuelLevel))], true)
          else (changes, false)
        let distance := calcDistance lastState.location current.location
        let (changes, hasSignificantChange) :=
          if dt.thresholds.locationMeters ≤ distance then
            (changes ++ [("location", Value.loc current.location.lat current.location.lng current.location.address),
                         ("distanceMoved", Value.num distance)], true)
          else (changes, hasSignificantChange)
        let speedChange := |current.speed - lastState.speed|
        let (changes, hasSignificantChange) :=
          if dt.thresholds.speedKmh ≤ speedChange then
            (changes ++ [("speed", Value.int current.speed),
                         ("speedChange", Value.int (current.speed - lastState.speed))], true)
          else (changes, hasSignificantChange)
        let (changes, hasSignificantChange) :=
          if current.status ≠ lastState.status then
            (changes ++ [("status", Value.str current.status),
                         ("previousStatus", Value.str lastState.status)], true)
          else (changes, hasSignificantChange)
        let odometerChange := |current.odometer - lastState.odometer|
        let (changes, hasSignificantChange) :=
          if dt.thresholds.odometerKm ≤ odometerChange then
            (changes ++ [("odometer", Value.int current.odometer),
                         ("odometerChange", Value.int (current.odometer - lastState.odometer))], true)
          else (changes, hasSignificantChange)
        if hasSignificantChange then
          (true,
           changes ++ [("vehicleId", Value.str vehicleID), ("timestamp", Value.time now)],
           { dt with lastStates := GoMap.insert vehicleID (createSnapshot current now) dt.lastStates })
        else
          (false, changes, dt)

end Telemetry

namespace WS

/-- The `websocket.VehicleFilters` struct. -/
structure VehicleFilters where
  vehicleIDs : List String
  statuses : List String
  drivers : List String
  alertTypes : List String
  deriving DecidableEq, Repr

/-- The `websocket.VehicleUpdate` struct; `data` is the dynamic
`map[string]interface{}` payload. -/
structure VehicleUpdate where
  vehicleID : String
  updateType : String
  data : List (String × Value)
  timestamp : ℚ
  priority : String
  deriving DecidableEq, Repr

/-- Go's `update.Data[key].(string)` comma-ok assertion: `some s` when the
key is present with a string value, `none` otherwise. -/
def dataString (key : String) (data : List (String × Value)) : Option String :=
  match GoMap.lookup key data with
  | some (Value.str s) => some s
  | _ => none

/-- `Manager.shouldSendToClient`: filter evaluation against a client's
configured filters. -/
def shouldSendToClient (filters : VehicleFilters) (update : VehicleUpdate) : Bool :=
  if filters.vehicleIDs = [] ∧ filters.statuses = [] ∧
     filters.drivers = [] ∧ filters.alertTypes = [] then
    true
  else if filters.vehicleIDs ≠ [] ∧ update.vehicleID ∉ filters.vehicleIDs then
    false
  else if filters.statuses ≠ [] ∧
      (match dataString "status" update.data with
       | some status => decide (status ∉ filters.statuses)
       | none => false) = true then
    false
  else if filters.alertTypes ≠ [] ∧ update.updateType = "alert" ∧
      (match dataString "alertType" update.data with
       | some alertType => decide (alertType ∉ filters.alertTypes)
       | none => false) = true then
    false
  else
    true

end WS


/-! Concrete fixtures used by claim witnesses and counterexamples. -/

/-- Concrete fixtures used by witnesses and counterexamples. -/
def sampleUpdate1 : Batch.VehicleUpdateData := ⟨some 75, none, none, none, none, 1⟩

/-- A second sparse update carrying a disjoint field set. -/
def sampleUpdate2 : Batch.VehicleUpdateData := ⟨none, none, some 60, none, none, 2⟩

/-- A concrete batch configuration. -/
def sampleConfig : Batch.BatchConfig := ⟨3, 30, 300, 3, 1⟩

/-- An intake state after `Stop()` whose buffered channel still has room. -/
def stoppedIntakeWithRoom : Batch.IntakeState := ⟨true, [], 6⟩

/-- A stored schedule for a vehicle currently in the active state. -/
def scheduleA : Telemetry.VehicleSchedule := ⟨"v1", .active, 0, 0, 0, 0, none⟩

/-- A scheduler knowing exactly the vehicle of `scheduleA`. -/
def schedulerA : Telemetry.SchedulerState := ⟨[("v1", scheduleA)]⟩

/-- The rate-limit configuration of test property 3: base capacity 3,
backoff multiplier 1 (no geometric shrink), reset 30 minutes, burst 5,
window 1 hour. -/
def c4Config : Telemetry.RateLimitConfig := ⟨3, 720, 1, 1800, 5, 3600⟩

/-- The n-th `CanMakeRequest` call (0-based) for one entity, all within one
window (same `now`), starting from an empty limiter. -/
def c4Call (p : Telemetry.Priority) : ℕ → Bool × ℚ × Telemetry.RateLimiterState
  | 0 => Telemetry.CanMakeRequest c4Config ⟨[]⟩ "veh-1" p 100000
  | n + 1 => Telemetry.CanMakeRequest c4Config (c4Call p n).2.2 "veh-1" p 100000

/-- A stored snapshot for the delta-tracker witnesses. -/
def snapshotW : Telemetry.VehicleSnapshot := ⟨50, ⟨0, 0, ""⟩, 0, "active", 100, 10⟩

/-- An observation close to `snapshotW` in every field. -/
def vehicleW : Telemetry.Vehicle := ⟨"v1", 52, ⟨1, 1, "x"⟩, 4, "active", 100⟩

/-- A tracker holding `snapshotW` under the default thresholds. -/
def trackerW : Telemetry.DeltaTrackerState := ⟨[("v1", snapshotW)], Telemetry.defaultThresholds⟩

/-- A vehicle identical to its stored snapshot, captured at time 0. -/
def c6Vehicle : Telemetry.Vehicle := ⟨"v1", 50, ⟨0, 0, ""⟩, 0, "active", 100⟩

/-- A tracker whose snapshot of `c6Vehicle` was captured at time 0, under
the default 15-minute (900 s) time threshold. -/
def c6Tracker : Telemetry.DeltaTrackerState :=
  ⟨[("v1", Telemetry.createSnapshot c6Vehicle 0)], Telemetry.defaultThresholds⟩

/-! Helper lemmas about the embedded operations. -/

namespace GoMap

theorem lookup_insert_self {α : Type} (k : String) (v : α) (m : List (String × α)) :
    lookup k (GoMap.insert k v m) = some v := by
  induction m with
  | nil => simp [GoMap.insert, lookup]
  | cons e rest ih =>
      rcases e with ⟨k', v'⟩
      by_cases h : k' = k
      · simp [GoMap.insert, lookup, h]
      · simp [GoMap.insert, lookup, h, ih]

theorem countKey_insert {α : Type} (k : String) (v : α) (m : List (String × α)) :
    countKey k (GoMap.insert k v m) = max 1 (countKey k m) := by
  induction m with
  | nil => simp [GoMap.insert, countKey]
  | cons e rest ih =>
      rcases e with ⟨k', v'⟩
      by_cases h : k' = k
      · subst h
        simp only [GoMap.insert, if_pos rfl]
        simp [countKey, List.filter_cons]
      · have hb : (k' == k) = false := by simp [h]
        simp only [GoMap.insert, if_neg h]
        simp only [countKey, List.filter_cons, hb, cond_false] at ih ⊢
        exact ih

theorem lookup_eq_filter_head {α : Type} (k : String) (m : List (String × α)) :
    lookup k m = ((m.filter (fun e => e.1 == k)).head?).map Prod.snd := by
  induction m with
  | nil => simp [lookup]
  | cons e rest ih =>
      rcases e with ⟨k', v'⟩
      by_cases h : k' = k
      · simp [lookup, h, List.filter_cons]
      · have hb : (k' == k) = false := by simp [h]
        simp [lookup, h, hb, List.filter_cons, ih]

theorem countKey_one_filter {α : Type} (k : String) (m : List (String × α))
    (h : countKey k m = 1) :
    ∃ u, m.filter (fun e => e.1 == k) = [(k, u)] := by
  induction m with
  | nil => simp [countKey] at h
  | cons e rest ih =>
      rcases e with ⟨k', v'⟩
      by_cases hk : k' = k
      · subst hk
        refine ⟨v', ?_⟩
        have hrest : rest.filter (fun e => e.1 == k') = [] := by
          simpa [countKey, List.filter_cons] using h
        simp [List.filter_cons, hrest]
      · have hb : (k' == k) = false := by simp [hk]
        have h' : countKey k rest = 1 := by
          simpa [countKey, List.filter_cons, hb] using h
        simpa [List.filter_cons, hb] using ih h'

theorem filter_key_single {α : Type} (k : String) (u : α) (m : List (String × α))
    (hcount : countKey k m = 1) (hlook : lookup k m = some u) :
    m.filter (fun e => e.1 == k) = [(k, u)] := by
  rcases countKey_one_filter k m hcount with ⟨u', hu'⟩
  rw [lookup_eq_filter_head, hu'] at hlook
  simp at hlook
  rw [hu', hlook]

end GoMap

namespace Batch

theorem splitLoop_flatten (maxSize : ℕ) (rest : PendingBuffer) :
    ∀ acc, (splitLoop maxSize acc rest).flatten = acc ++ rest := by
  induction rest with
  | nil =>
      intro acc
      by_cases h : acc.isEmpty
      · simp [splitLoop, h, List.isEmpty_iff.mp h]
      · simp [splitLoop, h]
  | cons e rest ih =>
      intro acc
      simp only [splitLoop]
      split
      · simp [ih]
      · simp [ih]

theorem splitIntoBatches_flatten (maxSize : ℕ) (updates : PendingBuffer) :
    (splitIntoBatches maxSize updates).flatten = updates := by
  unfold splitIntoBatches
  by_cases h : updates.length ≤ maxSize
  · simp [h]
  · simp [h, splitLoop_flatten]

theorem processSingleBatch_bulk_first (cfg : BatchConfig) (bulkOk : ℕ → Bool)
    (indOk : String → Bool) (stopSignal : ℕ → Bool) (wsOk : Bool)
    (batch : List (String × VehicleUpdateData)) (hb : bulkOk 0 = true) :
    processSingleBatch cfg bulkOk indOk stopSignal wsOk batch =
      ⟨none, batch, 0, true, !wsOk⟩ := by
  simp [processSingleBatch, processLoop, hb]

theorem processLoop_all_bulk_fail (cfg : BatchConfig) (bulkOk : ℕ → Bool)
    (indOk : String → Bool) (wsOk : Bool)
    (batch : List (String × VehicleUpdateData)) (hb : ∀ i, bulkOk i = false) :
    ∀ fuel attempt, attempt + fuel = cfg.retryAttempts + 1 →
      attempt ≤ cfg.retryAttempts →
      processLoop cfg bulkOk indOk (fun _ => false) wsOk batch attempt fuel =
        fallbackToIndividualUpdates indOk batch := by
  intro fuel
  induction fuel with
  | zero => intro a h1 h2; omega
  | succ fuel ih =>
      intro a h1 h2
      by_cases ha : a = cfg.retryAttempts
      · subst ha
        simp [processLoop, hb]
      · have hle : a + 1 ≤ cfg.retryAttempts := by omega
        simp only [processLoop, hb]
        rw [if_neg (by simp), if_neg (by simp), if_neg ha]
        exact ih (a + 1) (by omega) hle

theorem processSingleBatch_all_bulk_fail (cfg : BatchConfig) (bulkOk : ℕ → Bool)
    (indOk : String → Bool) (wsOk : Bool)
    (batch : List (String × VehicleUpdateData)) (hb : ∀ i, bulkOk i = false) :
    processSingleBatch cfg bulkOk indOk (fun _ => false) wsOk batch =
      fallbackToIndividualUpdates indOk batch := by
  unfold processSingleBatch
  exact processLoop_all_bulk_fail cfg bulkOk indOk wsOk batch hb
    (cfg.retryAttempts + 1) 0 (by omega) (by omega)

theorem ProcessBatch_persisted_bulk_first (cfg : BatchConfig) (bulkOk : ℕ → Bool)
    (indOk : String → Bool) (stopSignal : ℕ → Bool) (wsOk : Bool)
    (buffer : PendingBuffer) (hb : bulkOk 0 = true) :
    (ProcessBatch cfg bulkOk indOk stopSignal wsOk buffer).persisted = buffer := by
  unfold ProcessBatch
  by_cases he : buffer.isEmpty
  · simp [he, List.isEmpty_iff.mp he]
  · rw [if_neg he]
    show ((((splitIntoBatches cfg.maxBatchSize buffer).map
        (processSingleBatch cfg bulkOk indOk stopSignal wsOk)).map
        BatchResult.persisted)).flatten = buffer
    rw [List.map_map]
    have hcomp : (BatchResult.persisted ∘ processSingleBatch cfg bulkOk indOk stopSignal wsOk)
        = fun b => b := by
      funext b
      simp [processSingleBatch_bulk_first cfg bulkOk indOk stopSignal wsOk b hb]
    rw [hcomp]
    simp [splitIntoBatches_flatten]

end Batch

/-! Claim theorems. -/




/-- C1: For every entity and pair of updates added for it between two
flushes, `AddUpdate`/`addToCurrentBatch` stores the update at the entity's
key replacing any previous pending value in full (last-write-wins), so the
buffer holds at most one entry per entity, and the subsequent flush performs
exactly one persisted write for that entity containing only the fields of
the last add, with no merging of earlier sparse fields. -/
theorem C1_last_write_wins_single_flush_write
    (buffer : Batch.PendingBuffer) (vehicleID : String)
    (u1 u2 : Batch.VehicleUpdateData) (cfg : Batch.BatchConfig)
    (bulkOk : ℕ → Bool) (indOk : String → Bool) (stopSignal : ℕ → Bool) (wsOk : Bool)
    (hbuf : GoMap.countKey vehicleID buffer ≤ 1)
    (hbulk : bulkOk 0 = true) :
    GoMap.lookup vehicleID
      (Batch.addToCurrentBatch (Batch.addToCurrentBatch buffer vehicleID u1) vehicleID u2) =
        some u2 ∧
    GoMap.countKey vehicleID
      (Batch.addToCurrentBatch (Batch.addToCurrentBatch buffer vehicleID u1) vehicleID u2) = 1 ∧
    (Batch.ProcessBatch cfg bulkOk indOk stopSignal wsOk
      (Batch.addToCurrentBatch (Batch.addToCurrentBatch buffer vehicleID u1) vehicleID u2)).persisted.filter
        (fun e => e.1 == vehicleID) = [(vehicleID, u2)] := by
  simp only [Batch.addToCurrentBatch]
  have hlook := GoMap.lookup_insert_self vehicleID u2 (GoMap.insert vehicleID u1 buffer)
  have hcount : GoMap.countKey vehicleID
      (GoMap.insert vehicleID u2 (GoMap.insert vehicleID u1 buffer)) = 1 := by
    rw [GoMap.countKey_insert, GoMap.countKey_insert]
    omega
  refine ⟨hlook, hcount, ?_⟩
  rw [Batch.ProcessBatch_persisted_bulk_first cfg bulkOk indOk stopSignal wsOk _ hbulk]
  exact GoMap.filter_key_single vehicleID u2 _ hcount hlook

/-- C1 witness: two adds for entity "vA" on an empty buffer, flushed with an
always-succeeding bulk write. -/
theorem C1_witness :
    GoMap.countKey "vA" ([] : Batch.PendingBuffer) ≤ 1 ∧
    ((fun _ : ℕ => true) 0 = true) ∧
    (GoMap.lookup "vA"
      (Batch.addToCurrentBatch (Batch.addToCurrentBatch [] "vA" sampleUpdate1) "vA" sampleUpdate2) =
        some sampleUpdate2 ∧
    GoMap.countKey "vA"
      (Batch.addToCurrentBatch (Batch.addToCurrentBatch [] "vA" sampleUpdate1) "vA" sampleUpdate2) = 1 ∧
    (Batch.ProcessBatch sampleConfig (fun _ => true) (fun _ => true) (fun _ => false) true
      (Batch.addToCurrentBatch (Batch.addToCurrentBatch [] "vA" sampleUpdate1) "vA" sampleUpdate2)).persisted.filter
        (fun e => e.1 == "vA") = [("vA", sampleUpdate2)]) :=
  ⟨by simp [GoMap.countKey], rfl,
   C1_last_write_wins_single_flush_write [] "vA" sampleUpdate1 sampleUpdate2 sampleConfig
     (fun _ => true) (fun _ => true) (fun _ => false) true (by simp [GoMap.countKey]) rfl⟩

/-- C3: For a non-empty sub-batch whose bulk write fails on every attempt,
when every per-entity fallback write succeeds the whole sub-batch is
persisted individually, no failed update is counted, and the call returns
success; when exactly one per-entity write fails, the call returns an
aggregate error naming that entity while every other entity is still
persisted. -/
theorem C3_retry_then_fallback (cfg : Batch.BatchConfig) (bulkOk : ℕ → Bool) (wsOk : Bool)
    (batch : List (String × Batch.VehicleUpdateData))
    (hne : batch ≠ [])
    (hb : ∀ i, bulkOk i = false) :
    (∀ indOk : String → Bool, (∀ id, indOk id = true) →
      (Batch.processSingleBatch cfg bulkOk indOk (fun _ => false) wsOk batch).err = none ∧
      (Batch.processSingleBatch cfg bulkOk indOk (fun _ => false) wsOk batch).persisted = batch ∧
      (Batch.processSingleBatch cfg bulkOk indOk (fun _ => false) wsOk batch).failedUpdates = 0) ∧
    (∀ (indOk : String → Bool) (v : String),
      indOk v = false →
      (∀ e ∈ batch, e.1 ≠ v → indOk e.1 = true) →
      GoMap.countKey v batch = 1 →
      (Batch.processSingleBatch cfg bulkOk indOk (fun _ => false) wsOk batch).err = some [v] ∧
      (Batch.processSingleBatch cfg bulkOk indOk (fun _ => false) wsOk batch).persisted =
        batch.filter (fun e => !(e.1 == v)) ∧
      (Batch.processSingleBatch cfg bulkOk indOk (fun _ => false) wsOk batch).failedUpdates = 1) := by
  constructor
  · intro indOk hall
    rw [Batch.processSingleBatch_all_bulk_fail cfg bulkOk indOk wsOk batch hb]
    unfold Batch.fallbackToIndividualUpdates
    have hnone : batch.filter (fun e => !(indOk e.1)) = [] := by
      apply List.filter_eq_nil.mpr
      intro a _
      simp [hall a.1]
    have hself : batch.filter (fun e => indOk e.1) = batch := by
      apply List.filter_eq_self.mpr
      intro a _
      simp [hall a.1]
    simp [hnone, hself]
  · intro indOk v hv hothers hcount
    rw [Batch.processSingleBatch_all_bulk_fail cfg bulkOk indOk wsOk batch hb]
    unfold Batch.fallbackToIndividualUpdates
    have hcongr : batch.filter (fun e => !(indOk e.1)) = batch.filter (fun e => e.1 == v) := by
      apply List.filter_congr
      intro e he
      by_cases hek : e.1 = v
      · simp [hek, hv]
      · simp [hek, hothers e he hek]
    have hcongr2 : batch.filter (fun e => indOk e.1) = batch.filter (fun e => !(e.1 == v)) := by
      apply List.filter_congr
      intro e he
      by_cases hek : e.1 = v
      · simp [hek, hv]
      · simp [hek, hothers e he hek]
    obtain ⟨u, hu⟩ := GoMap.countKey_one_filter v batch hcount
    simp [hcongr, hcongr2, hu]

/-- C3 witness: a two-entity batch, bulk always failing; first with both
individual writes succeeding, then with only "vB" failing. -/
theorem C3_witness :
    ([("vA", sampleUpdate1), ("vB", sampleUpdate2)] ≠
        ([] : List (String × Batch.VehicleUpdateData))) ∧
    (∀ i : ℕ, (fun _ : ℕ => false) i = false) ∧
    ((∀ indOk : String → Bool, (∀ id, indOk id = true) →
      (Batch.processSingleBatch sampleConfig (fun _ => false) indOk (fun _ => false) true
        [("vA", sampleUpdate1), ("vB", sampleUpdate2)]).err = none ∧
      (Batch.processSingleBatch sampleConfig (fun _ => false) indOk (fun _ => false) true
        [("vA", sampleUpdate1), ("vB", sampleUpdate2)]).persisted =
          [("vA", sampleUpdate1), ("vB", sampleUpdate2)] ∧
      (Batch.processSingleBatch sampleConfig (fun _ => false) indOk (fun _ => false) true
        [("vA", sampleUpdate1), ("vB", sampleUpdate2)]).failedUpdates = 0) ∧
    (∀ (indOk : String → Bool) (v : String),
      indOk v = false →
      (∀ e ∈ [("vA", sampleUpdate1), ("vB", sampleUpdate2)], e.1 ≠ v → indOk e.1 = true) →
      GoMap.countKey v [("vA", sampleUpdate1), ("vB", sampleUpdate2)] = 1 →
      (Batch.processSingleBatch sampleConfig (fun _ => false) indOk (fun _ => false) true
        [("vA", sampleUpdate1), ("vB", sampleUpdate2)]).err = some [v] ∧
      (Batch.processSingleBatch sampleConfig (fun _ => false) indOk (fun _ => false) true
        [("vA", sampleUpdate1), ("vB", sampleUpdate2)]).persisted =
          [("vA", sampleUpdate1), ("vB", sampleUpdate2)].filter (fun e => !(e.1 == v)) ∧
      (Batch.processSingleBatch sampleConfig (fun _ => false) indOk (fun _ => false) true
        [("vA", sampleUpdate1), ("vB", sampleUpdate2)]).failedUpdates = 1)) :=
  ⟨by simp, fun _ => rfl,
   C3_retry_then_fallback sampleConfig (fun _ => false) true
     [("vA", sampleUpdate1), ("vB", sampleUpdate2)] (by simp) (fun _ => rfl)⟩

/-- C7: Whenever the bulk repository write of a sub-batch succeeds (here: on
its first attempt), `processSingleBatch` returns success with no failed
updates and the whole sub-batch persisted, for both possible outcomes of the
subsequent WebSocket broadcast — the persisted write is never rolled back or
reported as failed because the broadcast step failed. -/
theorem C7_broadcast_failure_isolated (cfg : Batch.BatchConfig) (bulkOk : ℕ → Bool)
    (indOk : String → Bool) (stopSignal : ℕ → Bool)
    (batch : List (String × Batch.VehicleUpdateData))
    (hb : bulkOk 0 = true) :
    ∀ wsOk : Bool,
      (Batch.processSingleBatch cfg bulkOk indOk stopSignal wsOk batch).err = none ∧
      (Batch.processSingleBatch cfg bulkOk indOk stopSignal wsOk batch).failedUpdates = 0 ∧
      (Batch.processSingleBatch cfg bulkOk indOk stopSignal wsOk batch).persisted = batch ∧
      (Batch.processSingleBatch cfg bulkOk indOk stopSignal wsOk batch).broadcastAttempted = true ∧
      (Batch.processSingleBatch cfg bulkOk indOk stopSignal wsOk batch).broadcastFailed = !wsOk := by
  intro wsOk
  rw [Batch.processSingleBatch_bulk_first cfg bulkOk indOk stopSignal wsOk batch hb]
  exact ⟨rfl, rfl, rfl, rfl, rfl⟩

/-- C7 witness: a singleton batch whose bulk write succeeds while the
broadcast fails (`wsOk = false`). -/
theorem C7_witness :
    ((fun _ : ℕ => true) 0 = true) ∧
    ((Batch.processSingleBatch sampleConfig (fun _ => true) (fun _ => true) (fun _ => false) false
        [("vA", sampleUpdate1)]).err = none ∧
     (Batch.processSingleBatch sampleConfig (fun _ => true) (fun _ => true) (fun _ => false) false
        [("vA", sampleUpdate1)]).failedUpdates = 0 ∧
     (Batch.processSingleBatch sampleConfig (fun _ => true) (fun _ => true) (fun _ => false) false
        [("vA", sampleUpdate1)]).persisted = [("vA", sampleUpdate1)] ∧
     (Batch.processSingleBatch sampleConfig (fun _ => true) (fun _ => true) (fun _ => false) false
        [("vA", sampleUpdate1)]).broadcastAttempted = true ∧
     (Batch.processSingleBatch sampleConfig (fun _ => true) (fun _ => true) (fun _ => false) false
        [("vA", sampleUpdate1)]).broadcastFailed = !false) :=
  ⟨rfl,
   C7_broadcast_failure_isolated sampleConfig (fun _ => true) (fun _ => true) (fun _ => false)
     [("vA", sampleUpdate1)] rfl false⟩


/-- C8 counterexample: the claim says every `AddUpdate` issued after `Stop()`
returns an error, but when the intake channel still has buffer room the
`select` may choose the ready send case, enqueue the update and return nil. -/
theorem C8_counterexample :
    stoppedIntakeWithRoom.stopped = true ∧
    (Batch.AddUpdate stoppedIntakeWithRoom "vehicle2" sampleUpdate1 true).1 =
      Batch.AddResult.enqueued ∧
    (Batch.AddUpdate stoppedIntakeWithRoom "vehicle2" sampleUpdate1 true).2.queue =
      [("vehicle2", sampleUpdate1)] := by
  refine ⟨rfl, ?_, ?_⟩ <;> rfl

/-- C8 amended: `AddUpdate` returns an error without enqueueing whenever the
intake queue is full (the stopped error when stopped, the queue-full error
otherwise), and after `Stop()` it returns the stopped error without
enqueueing whenever the select does not resolve to the send case; with free
queue space after `Stop()` the call may instead enqueue and return nil. -/
theorem C8_amended_intake_rejection (st : Batch.IntakeState) (vehicleID : String)
    (update : Batch.VehicleUpdateData) (pickSend : Bool) :
    (st.capacity ≤ st.queue.length →
      (Batch.AddUpdate st vehicleID update pickSend).1 =
        (if st.stopped then Batch.AddResult.errStopped else Batch.AddResult.errQueueFull) ∧
      (Batch.AddUpdate st vehicleID update pickSend).2 = st) ∧
    (st.stopped = true → pickSend = false →
      (Batch.AddUpdate st vehicleID update pickSend).1 = Batch.AddResult.errStopped ∧
      (Batch.AddUpdate st vehicleID update pickSend).2 = st) := by
  constructor
  · intro hfull
    have hns : ¬ (st.queue.length < st.capacity) := by omega
    by_cases hs : st.stopped = true
    · simp [Batch.AddUpdate, hns, hs]
    · simp [Batch.AddUpdate, hns, hs]
  · intro hs hp
    subst hp
    by_cases hr : st.queue.length < st.capacity
    · simp [Batch.AddUpdate, hr, hs]
    · simp [Batch.AddUpdate, hr, hs]

/-- C8 witness: a full intake queue on a running processor is rejected with
the queue-full error and nothing enqueued. -/
theorem C8_witness :
    ((Batch.IntakeState.mk false [("vA", sampleUpdate1)] 1).capacity ≤
      (Batch.IntakeState.mk false [("vA", sampleUpdate1)] 1).queue.length) ∧
    ((Batch.AddUpdate (Batch.IntakeState.mk false [("vA", sampleUpdate1)] 1) "vB" sampleUpdate2 true).1 =
      (if (Batch.IntakeState.mk false [("vA", sampleUpdate1)] 1).stopped then
        Batch.AddResult.errStopped else Batch.AddResult.errQueueFull) ∧
     (Batch.AddUpdate (Batch.IntakeState.mk false [("vA", sampleUpdate1)] 1) "vB" sampleUpdate2 true).2 =
      Batch.IntakeState.mk false [("vA", sampleUpdate1)] 1) :=
  ⟨by simp,
   (C8_amended_intake_rejection (Batch.IntakeState.mk false [("vA", sampleUpdate1)] 1)
     "vB" sampleUpdate2 true).1 (by simp)⟩

/-- C2 counterexample: (a) for an entity not yet known the claim asserts the
periodic timer is (re)started at the state's nominal interval, but
`UpdateVehicleState` creates the lazy schedule already carrying the new
state, so the "state changed" branch is skipped and no ticker is started;
(b) a state change into idle restarts the ticker at 144 s, not the idle
state's nominal interval of 120 s, because the zeroed idle counter is
immediately incremented and the 20% growth applied. -/
theorem C2_counterexample :
    (GoMap.lookup "v1"
      (Telemetry.UpdateVehicleState ⟨[]⟩ "v1" Telemetry.VehicleState.active 0).vehicles).map
        Telemetry.VehicleSchedule.ticker = some none ∧
    (GoMap.lookup "v1"
      (Telemetry.UpdateVehicleState schedulerA "v1" Telemetry.VehicleState.idle 0).vehicles).map
        Telemetry.VehicleSchedule.ticker = some (some 144) ∧
    (Telemetry.frequencies Telemetry.VehicleState.idle).interval = 120 := by
  refine ⟨?_, ?_, rfl⟩ <;>
    norm_num [Telemetry.UpdateVehicleState, Telemetry.adjustUpdateFrequency,
      Telemetry.startScheduler, Telemetry.frequencies, schedulerA, scheduleA,
      GoMap.lookup, GoMap.insert]

/-- C2 amended: a `SetState`/`UpdateVehicleState` call whose state differs
from the stored one zeroes `consecutiveIdleCycles` and then recomputes the
interval before restarting the ticker, so for a non-idle/parked new state
the ticker restarts at the state's nominal interval with idle count 0, while
for Idle/Parked the idle count becomes 1 and the ticker restarts at the
nominal interval grown by 20% (clamped at the state's maximum); for an
entity not yet known the schedule is created lazily with no error, but no
ticker is started. -/
theorem C2_amended_set_state (s : Telemetry.SchedulerState) (vehicleID : String)
    (newState : Telemetry.VehicleState) (now : ℚ) :
    (∀ sc, GoMap.lookup vehicleID s.vehicles = some sc → sc.currentState ≠ newState →
      ∃ sc', GoMap.lookup vehicleID
          (Telemetry.UpdateVehicleState s vehicleID newState now).vehicles = some sc' ∧
        sc'.currentState = newState ∧
        ((newState = .idle ∨ newState = .parked) →
          sc'.consecutiveIdle = 1 ∧
          sc'.ticker = some sc'.updateInterval ∧
          sc'.updateInterval =
            (if (Telemetry.frequencies newState).maxInterval <
                (Telemetry.frequencies newState).interval * (6 / 5) then
              (Telemetry.frequencies newState).maxInterval
            else (Telemetry.frequencies newState).interval * (6 / 5))) ∧
        (¬ (newState = .idle ∨ newState = .parked) →
          sc'.consecutiveIdle = 0 ∧
          sc'.ticker = some (Telemetry.frequencies newState).interval)) ∧
    (GoMap.lookup vehicleID s.vehicles = none →
      ∃ sc', GoMap.lookup vehicleID
          (Telemetry.UpdateVehicleState s vehicleID newState now).vehicles = some sc' ∧
        sc'.currentState = newState ∧ sc'.consecutiveIdle = 0 ∧ sc'.ticker = none) := by
  constructor
  · intro sc hsc hne
    simp only [Telemetry.UpdateVehicleState, hsc]
    rw [if_pos hne]
    refine ⟨_, GoMap.lookup_insert_self _ _ _, ?_, ?_, ?_⟩
    · by_cases hidle : newState = .idle ∨ newState = .parked
      · rcases hidle with h | h <;> subst h <;>
          simp [Telemetry.startScheduler, Telemetry.adjustUpdateFrequency]
      · simp [Telemetry.startScheduler, Telemetry.adjustUpdateFrequency, hidle]
    · intro hidle
      rcases hidle with h | h <;> subst h <;>
        simp [Telemetry.startScheduler, Telemetry.adjustUpdateFrequency,
          Telemetry.frequencies] <;> norm_num
    · intro hnidle
      simp [Telemetry.startScheduler, Telemetry.adjustUpdateFrequency, hnidle]
  · intro hnone
    simp only [Telemetry.UpdateVehicleState, hnone]
    rw [if_neg (by simp)]
    exact ⟨_, GoMap.lookup_insert_self _ _ _, rfl, rfl, rfl⟩



/-- C2 witness: switching the stored active vehicle to idle restarts its
ticker (at 20% above the idle nominal interval) with idle count 1. -/
theorem C2_witness :
    GoMap.lookup "v1" schedulerA.vehicles = some scheduleA ∧
    scheduleA.currentState ≠ Telemetry.VehicleState.idle ∧
    (∃ sc', GoMap.lookup "v1"
        (Telemetry.UpdateVehicleState schedulerA "v1" Telemetry.VehicleState.idle 7).vehicles =
          some sc' ∧
      sc'.currentState = Telemetry.VehicleState.idle ∧
      ((Telemetry.VehicleState.idle = Telemetry.VehicleState.idle ∨
          Telemetry.VehicleState.idle = Telemetry.VehicleState.parked) →
        sc'.consecutiveIdle = 1 ∧
        sc'.ticker = some sc'.updateInterval ∧
        sc'.updateInterval =
          (if (Telemetry.frequencies Telemetry.VehicleState.idle).maxInterval <
              (Telemetry.frequencies Telemetry.VehicleState.idle).interval * (6 / 5) then
            (Telemetry.frequencies Telemetry.VehicleState.idle).maxInterval
          else (Telemetry.frequencies Telemetry.VehicleState.idle).interval * (6 / 5))) ∧
      (¬ (Telemetry.VehicleState.idle = Telemetry.VehicleState.idle ∨
          Telemetry.VehicleState.idle = Telemetry.VehicleState.parked) →
        sc'.consecutiveIdle = 0 ∧
        sc'.ticker = some (Telemetry.frequencies Telemetry.VehicleState.idle).interval)) :=
  ⟨rfl, by decide,
   (C2_amended_set_state schedulerA "v1" Telemetry.VehicleState.idle 7).1 scheduleA rfl
     (by decide)⟩



/-- C4: with base capacity 3, backoff multiplier 1 and a non-critical
priority, the first three admissions succeed, each incrementing the window
counter, and the fourth is rejected with a positive `retryAfter` equal to
min(maxRetry, consecutiveRejections × 30s × multiplier^backoffLevel)
computed after the rejection bumped `consecutiveRejections` and
`backoffLevel` to 1. -/
theorem C4_burst_then_block (p : Telemetry.Priority)
    (hp : p ≠ Telemetry.Priority.critical) :
    (c4Call p 0).1 = true ∧ Telemetry.currentCount (c4Call p 0).2.2 "veh-1" = 1 ∧
    (c4Call p 1).1 = true ∧ Telemetry.currentCount (c4Call p 1).2.2 "veh-1" = 2 ∧
    (c4Call p 2).1 = true ∧ Telemetry.currentCount (c4Call p 2).2.2 "veh-1" = 3 ∧
    (c4Call p 3).1 = false ∧ 0 < (c4Call p 3).2.1 ∧
    (c4Call p 3).2.1 = min 900 ((1 : ℚ) * 30 * c4Config.backoffMultiplier ^ 1) ∧
    (GoMap.lookup "veh-1" (c4Call p 3).2.2.vehicleLimits).map
      Telemetry.VehicleRateLimit.consecutiveRejects = some 1 ∧
    (GoMap.lookup "veh-1" (c4Call p 3).2.2.vehicleLimits).map
      Telemetry.VehicleRateLimit.backoffLevel = some 1 := by
  cases p
  case critical => exact absurd rfl hp
  all_goals
    norm_num [c4Call, c4Config, Telemetry.CanMakeRequest, Telemetry.calculateCurrentLimit,
      Telemetry.calculateRetryAfter, Telemetry.goIntTrunc, Telemetry.currentCount,
      GoMap.lookup, GoMap.insert, min_def]
  all_goals decide

/-- C4 witness: the run at low priority. -/
theorem C4_witness :
    Telemetry.Priority.low ≠ Telemetry.Priority.critical ∧
    ((c4Call Telemetry.Priority.low 0).1 = true ∧
     Telemetry.currentCount (c4Call Telemetry.Priority.low 0).2.2 "veh-1" = 1 ∧
     (c4Call Telemetry.Priority.low 1).1 = true ∧
     Telemetry.currentCount (c4Call Telemetry.Priority.low 1).2.2 "veh-1" = 2 ∧
     (c4Call Telemetry.Priority.low 2).1 = true ∧
     Telemetry.currentCount (c4Call Telemetry.Priority.low 2).2.2 "veh-1" = 3 ∧
     (c4Call Telemetry.Priority.low 3).1 = false ∧ 0 < (c4Call Telemetry.Priority.low 3).2.1 ∧
     (c4Call Telemetry.Priority.low 3).2.1 =
       min 900 ((1 : ℚ) * 30 * c4Config.backoffMultiplier ^ 1) ∧
     (GoMap.lookup "veh-1" (c4Call Telemetry.Priority.low 3).2.2.vehicleLimits).map
       Telemetry.VehicleRateLimit.consecutiveRejects = some 1 ∧
     (GoMap.lookup "veh-1" (c4Call Telemetry.Priority.low 3).2.2.vehicleLimits).map
       Telemetry.VehicleRateLimit.backoffLevel = some 1) :=
  ⟨by decide, C4_burst_then_block Telemetry.Priority.low (by decide)⟩

/-- C9: a rejected `CanMakeRequest` call never increases the entity's window
counter (it leaves it unchanged, or the expiry of the window has just reset
it to zero), while an admitted call increments the (possibly window-reset)
counter by exactly one. -/
theorem C9_reject_consumes_no_capacity (cfg : Telemetry.RateLimitConfig)
    (s : Telemetry.RateLimiterState) (vehicleID : String) (p : Telemetry.Priority)
    (now : ℚ) :
    ((Telemetry.CanMakeRequest cfg s vehicleID p now).1 = false →
      Telemetry.currentCount (Telemetry.CanMakeRequest cfg s vehicleID p now).2.2 vehicleID ≤
        Telemetry.currentCount s vehicleID ∧
      (Telemetry.currentCount (Telemetry.CanMakeRequest cfg s vehicleID p now).2.2 vehicleID =
          Telemetry.currentCount s vehicleID ∨
       Telemetry.currentCount (Telemetry.CanMakeRequest cfg s vehicleID p now).2.2 vehicleID = 0)) ∧
    ((Telemetry.CanMakeRequest cfg s vehicleID p now).1 = true →
      (Telemetry.currentCount (Telemetry.CanMakeRequest cfg s vehicleID p now).2.2 vehicleID =
          Telemetry.currentCount s vehicleID + 1 ∨
       Telemetry.currentCount (Telemetry.CanMakeRequest cfg s vehicleID p now).2.2 vehicleID = 1)) := by
  unfold Telemetry.CanMakeRequest Telemetry.currentCount
  rcases hl : GoMap.lookup vehicleID s.vehicleLimits with _ | l <;>
    simp only [hl] <;>
    split <;> split <;> split <;> (try split) <;> (try split) <;>
    (try simp_all [GoMap.lookup_insert_self, apply_ite]) <;>
    first
      | omega
      | (rename_i heq; simp [← heq])

/-- C9 witness: the fourth call of the C4 run is rejected and leaves the
window counter at 3. -/
theorem C9_witness :
    (Telemetry.CanMakeRequest c4Config (c4Call Telemetry.Priority.low 2).2.2 "veh-1"
        Telemetry.Priority.low 100000).1 = false ∧
    (Telemetry.currentCount
        (Telemetry.CanMakeRequest c4Config (c4Call Telemetry.Priority.low 2).2.2 "veh-1"
          Telemetry.Priority.low 100000).2.2 "veh-1" ≤
      Telemetry.currentCount (c4Call Telemetry.Priority.low 2).2.2 "veh-1" ∧
     (Telemetry.currentCount
        (Telemetry.CanMakeRequest c4Config (c4Call Telemetry.Priority.low 2).2.2 "veh-1"
          Telemetry.Priority.low 100000).2.2 "veh-1" =
        Telemetry.currentCount (c4Call Telemetry.Priority.low 2).2.2 "veh-1" ∨
      Telemetry.currentCount
        (Telemetry.CanMakeRequest c4Config (c4Call Telemetry.Priority.low 2).2.2 "veh-1"
          Telemetry.Priority.low 100000).2.2 "veh-1" = 0)) := by
  have hrej : (Telemetry.CanMakeRequest c4Config (c4Call Telemetry.Priority.low 2).2.2 "veh-1"
      Telemetry.Priority.low 100000).1 = false := by
    norm_num [c4Call, c4Config, Telemetry.CanMakeRequest, Telemetry.calculateCurrentLimit,
      Telemetry.goIntTrunc, GoMap.lookup, GoMap.insert]
    decide
  exact ⟨hrej,
    (C9_reject_consumes_no_capacity c4Config (c4Call Telemetry.Priority.low 2).2.2 "veh-1"
      Telemetry.Priority.low 100000).1 hrej⟩

/-- C5: for an entity with a stored snapshot, an observation within the time
threshold whose fuel, location, speed and odometer deltas are each strictly
below their thresholds and whose status equals the snapshot's yields
significant = false, an empty change-set, and a completely unchanged tracker
state. -/
theorem C5_delta_suppression (calcDistance : Location → Location → ℚ)
    (dt : Telemetry.DeltaTrackerState) (vehicleID : String)
    (current : Telemetry.Vehicle) (now : ℚ) (sc : Telemetry.VehicleSnapshot)
    (hlook : GoMap.lookup vehicleID dt.lastStates = some sc)
    (htime : now - sc.lastUpdate ≤ dt.thresholds.timeThreshold)
    (hfuel : |current.fuelLevel - sc.fuelLevel| < dt.thresholds.fuelLevelPercent)
    (hloc : calcDistance sc.location current.location < dt.thresholds.locationMeters)
    (hspeed : |current.speed - sc.speed| < dt.thresholds.speedKmh)
    (hstatus : current.status = sc.status)
    (hodo : |current.odometer - sc.odometer| < dt.thresholds.odometerKm) :
    Telemetry.ShouldUpdate calcDistance dt vehicleID current now = (false, [], dt) := by
  have h1 : ¬ (dt.thresholds.timeThreshold < now - sc.lastUpdate) := not_lt.mpr htime
  have h2 : ¬ (dt.thresholds.fuelLevelPercent ≤ |current.fuelLevel - sc.fuelLevel|) :=
    not_le.mpr hfuel
  have h3 : ¬ (dt.thresholds.locationMeters ≤ calcDistance sc.location current.location) :=
    not_le.mpr hloc
  have h4 : ¬ (dt.thresholds.speedKmh ≤ |current.speed - sc.speed|) := not_le.mpr hspeed
  have h5 : ¬ (current.status ≠ sc.status) := by simp [hstatus]
  have h6 : ¬ (dt.thresholds.odometerKm ≤ |current.odometer - sc.odometer|) := not_le.mpr hodo
  simp [Telemetry.ShouldUpdate, hlook, h1, h2, h3, h4, h5, h6]




/-- C5 witness: a sub-threshold observation 90 seconds after the snapshot is
suppressed and leaves the tracker untouched. -/
theorem C5_witness :
    GoMap.lookup "v1" trackerW.lastStates = some snapshotW ∧
    ((100 : ℚ) - snapshotW.lastUpdate ≤ trackerW.thresholds.timeThreshold) ∧
    (|vehicleW.fuelLevel - snapshotW.fuelLevel| < trackerW.thresholds.fuelLevelPercent) ∧
    ((fun _ _ : Location => (50 : ℚ)) snapshotW.location vehicleW.location <
      trackerW.thresholds.locationMeters) ∧
    (|vehicleW.speed - snapshotW.speed| < trackerW.thresholds.speedKmh) ∧
    vehicleW.status = snapshotW.status ∧
    (|vehicleW.odometer - snapshotW.odometer| < trackerW.thresholds.odometerKm) ∧
    Telemetry.ShouldUpdate (fun _ _ => (50 : ℚ)) trackerW "v1" vehicleW 100 =
      (false, [], trackerW) :=
  ⟨rfl, by norm_num [snapshotW, trackerW, Telemetry.defaultThresholds],
   by norm_num [vehicleW, snapshotW, trackerW, Telemetry.defaultThresholds],
   by norm_num [trackerW, Telemetry.defaultThresholds],
   by norm_num [vehicleW, snapshotW, trackerW, Telemetry.defaultThresholds],
   rfl,
   by norm_num [vehicleW, snapshotW, trackerW, Telemetry.defaultThresholds],
   C5_delta_suppression (fun _ _ => (50 : ℚ)) trackerW "v1" vehicleW 100 snapshotW rfl
     (by norm_num [snapshotW, trackerW, Telemetry.defaultThresholds])
     (by norm_num [vehicleW, snapshotW, trackerW, Telemetry.defaultThresholds])
     (by norm_num [trackerW, Telemetry.defaultThresholds])
     (by norm_num [vehicleW, snapshotW, trackerW, Telemetry.defaultThresholds])
     rfl
     (by norm_num [vehicleW, snapshotW, trackerW, Telemetry.defaultThresholds])⟩



/-- C6 counterexample: at now − lastCapturedAt exactly equal to the time
threshold (claimed to force significance) an observation identical to the
snapshot is NOT significant and the snapshot is not replaced: the code
forces a refresh only for strictly greater elapsed time. -/
theorem C6_counterexample :
    (900 : ℚ) - (Telemetry.createSnapshot c6Vehicle 0).lastUpdate =
      Telemetry.defaultThresholds.timeThreshold ∧
    (Telemetry.ShouldUpdate (fun _ _ => 0) c6Tracker "v1" c6Vehicle 900).1 = false ∧
    (Telemetry.ShouldUpdate (fun _ _ => 0) c6Tracker "v1" c6Vehicle 900).2.2 = c6Tracker := by
  refine ⟨by norm_num [Telemetry.createSnapshot, Telemetry.defaultThresholds], ?_, ?_⟩ <;>
    norm_num [Telemetry.ShouldUpdate, Telemetry.createSnapshot, Telemetry.defaultThresholds,
      c6Tracker, c6Vehicle, GoMap.lookup]

/-- C6 amended: whenever now − lastCapturedAt is strictly greater than the
time threshold, `ShouldUpdate` returns significant = true with the full
change-set containing all fields regardless of the field deltas, and the
snapshot is replaced wholesale. -/
theorem C6_amended_forced_refresh (calcDistance : Location → Location → ℚ)
    (dt : Telemetry.DeltaTrackerState) (vehicleID : String)
    (current : Telemetry.Vehicle) (now : ℚ) (sc : Telemetry.VehicleSnapshot)
    (hlook : GoMap.lookup vehicleID dt.lastStates = some sc)
    (htime : dt.thresholds.timeThreshold < now - sc.lastUpdate) :
    Telemetry.ShouldUpdate calcDistance dt vehicleID current now =
      (true, Telemetry.createFullUpdate current now,
       { dt with lastStates :=
          GoMap.insert vehicleID (Telemetry.createSnapshot current now) dt.lastStates }) := by
  simp [Telemetry.ShouldUpdate, hlook, htime]

/-- C6 witness: the identical observation one second past the threshold is
forced significant with the full change-set and a replaced snapshot. -/
theorem C6_witness :
    GoMap.lookup "v1" c6Tracker.lastStates = some (Telemetry.createSnapshot c6Vehicle 0) ∧
    (c6Tracker.thresholds.timeThreshold <
      (901 : ℚ) - (Telemetry.createSnapshot c6Vehicle 0).lastUpdate) ∧
    Telemetry.ShouldUpdate (fun _ _ => 0) c6Tracker "v1" c6Vehicle 901 =
      (true, Telemetry.createFullUpdate c6Vehicle 901,
       { c6Tracker with
          lastStates := GoMap.insert "v1" (Telemetry.createSnapshot c6Vehicle 901) c6Tracker.lastStates }) :=
  ⟨rfl, by norm_num [c6Tracker, Telemetry.createSnapshot, Telemetry.defaultThresholds],
   C6_amended_forced_refresh (fun _ _ => 0) c6Tracker "v1" c6Vehicle 901
     (Telemetry.createSnapshot c6Vehicle 0) rfl
     (by norm_num [c6Tracker, Telemetry.createSnapshot, Telemetry.defaultThresholds])⟩

/-- C10: a subscriber whose filter has a non-empty status allow-list and
empty entity-ID, driver and alert-type lists receives every update whose
payload does not carry a string-valued "status" field, regardless of the
allow-list's contents. -/
theorem C10_statusless_passes_status_filter
    (filters : WS.VehicleFilters) (update : WS.VehicleUpdate)
    (hstat : filters.statuses ≠ [])
    (hveh : filters.vehicleIDs = [])
    (hdrv : filters.drivers = [])
    (halert : filters.alertTypes = [])
    (hnostatus : WS.dataString "status" update.data = none) :
    WS.shouldSendToClient filters update = true := by
  simp [WS.shouldSendToClient, hstat, hveh, hdrv, halert, hnostatus]

/-- C10 witness: a status-filtered subscriber still receives a speed update
with no "status" key in its payload. -/
theorem C10_witness :
    (WS.VehicleFilters.mk [] ["active"] [] []).statuses ≠ [] ∧
    (WS.VehicleFilters.mk [] ["active"] [] []).vehicleIDs = [] ∧
    (WS.VehicleFilters.mk [] ["active"] [] []).drivers = [] ∧
    (WS.VehicleFilters.mk [] ["active"] [] []).alertTypes = [] ∧
    WS.dataString "status"
      (WS.VehicleUpdate.mk "vX" "speed" [("speed", Value.int 50)] 5 "medium").data = none ∧
    WS.shouldSendToClient (WS.VehicleFilters.mk [] ["active"] [] [])
      (WS.VehicleUpdate.mk "vX" "speed" [("speed", Value.int 50)] 5 "medium") = true :=
  ⟨by simp, rfl, rfl, rfl, rfl,
   C10_statusless_passes_status_filter (WS.VehicleFilters.mk [] ["active"] [] [])
     (WS.VehicleUpdate.mk "vX" "speed" [("speed", Value.int 50)] 5 "medium")
     (by simp) rfl rfl rfl rfl⟩

end FleetBackend
